import Mathlib

/-!
A shallow embedding of the moderation decision engine of the
TelegramBotAntiSpam repository (src/bot.py).

Time is modelled in milliseconds as `Nat`.  Every table keyed by
`(chat_id, user_id)` is modelled by the row of one fixed pair, as an
`Option` of the row's payload: all the queries embedded here touch a row
only through that key, and the global time-based purges act on each row
independently through the row's own timestamp, so the projection to one
pair is faithful.
-/

namespace AntiSpamBot

/-- The three captcha policies of `class CaptchaPolicy` in src/bot.py. -/
def CaptchaPolicy.PERSISTENT : String := "persistent"

/-- `CaptchaPolicy.TIME_BASED` in src/bot.py. -/
def CaptchaPolicy.TIME_BASED : String := "time_based"

/-- `CaptchaPolicy.ALWAYS` in src/bot.py. -/
def CaptchaPolicy.ALWAYS : String := "always"

/-- One row of the `chat_settings` table / the dict returned by
`DatabaseManager.get_chat_settings`. -/
structure ChatSettings where
  chat_id : Int
  welcome_message : String
  min_account_age_days : Nat
  min_join_date_days : Nat
  restrict_new_users : Bool
  delete_service_messages : Bool
  enabled : Bool
  max_warnings : Nat
  anti_flood_enabled : Bool
  protect_comments : Bool
  message_cooldown_enabled : Bool
  captcha_enabled : Bool
  captcha_type : String
  captcha_timeout_minutes : Nat
  captcha_max_attempts : Nat
  captcha_policy : String
  captcha_valid_days : Nat
deriving DecidableEq

/-- The `default_settings` dict built in `get_chat_settings` when no row
exists for the chat (src/bot.py lines 206-226). -/
def default_settings (chat_id : Int) : ChatSettings where
  chat_id := chat_id
  welcome_message := "👋 Добро пожаловать, \x7bmention\x7d! Рады видеть вас в \x7bchat\x7d!"
  min_account_age_days := 1
  min_join_date_days := 0
  restrict_new_users := true
  delete_service_messages := true
  enabled := true
  max_warnings := 3
  anti_flood_enabled := true
  protect_comments := true
  message_cooldown_enabled := false
  captcha_enabled := true
  captcha_type := "button"
  captcha_timeout_minutes := 10
  captcha_max_attempts := 3
  captcha_policy := CaptchaPolicy.PERSISTENT
  captcha_valid_days := 30

/-- `DatabaseManager.get_chat_settings` (src/bot.py lines 167-230).
`stored` is the chat's row of `chat_settings` (if any), `storage_error`
says whether a database exception is raised during the call.  The result
is the returned value (the body returns the stored row, or creates,
persists and returns `default_settings`; the `except` branch returns
`None`) paired with the stored row afterwards. -/
def get_chat_settings (chat_id : Int) (stored : Option ChatSettings)
    (storage_error : Bool) : Option ChatSettings × Option ChatSettings :=
  if storage_error then (none, stored)
  else
    match stored with
    | some s => (some s, some s)
    | none => (some (default_settings chat_id), some (default_settings chat_id))

/-- One row of the `flood_control` table for the fixed pair:
`message_count` and `last_message` (ms). -/
structure FloodRecord where
  message_count : Nat
  last_message : Nat
deriving DecidableEq

/-- `DatabaseManager.check_flood_control` (src/bot.py lines 518-556).
The body's first statement is `DELETE FROM flood_control WHERE
last_message < NOW() - INTERVAL %s SECOND` with an integer parameter
(line 525): psycopg2 renders the parameter unquoted, giving `INTERVAL
10 SECOND`, which is not valid PostgreSQL interval syntax (every other
interval in the file is the valid quoted form, e.g. `INTERVAL '1 day'`
on line 721).  The statement therefore raises on every call before any
of the later purge/increment/compare statements run, the connection
context rolls the transaction back so the row is unchanged, and the
`except` branch (lines 553-556) logs the error and returns `False`.
The signature keeps the Python defaults `time_window = 10`,
`max_messages = 5`, which the error path never reads. -/
def check_flood_control (_now : Nat) (rec : Option FloodRecord)
    (_time_window : Nat := 10) (_max_messages : Nat := 5) :
    Bool × Option FloodRecord :=
  (false, rec)

/-- One row of the `user_warnings` table for the fixed pair, reduced to
`warnings_count` (the `last_warning` timestamp is never read back by the
engine). -/
abbrev WarningLedger : Type := Option Nat

/-- `DatabaseManager.add_user_warning` (src/bot.py lines 459-477):
atomic insert-at-1 or increment, returning the resulting count together
with the row afterwards. -/
def add_user_warning (w : WarningLedger) : Nat × WarningLedger :=
  match w with
  | none => (1, some 1)
  | some c => (c + 1, some (c + 1))

/-- The flood branch of `handle_comments` (src/bot.py lines 2704-2743)
for one incoming message at time `now` (ms): run `check_flood_control`
with its default parameters; on flood, delete the message and call
`add_user_warning`, then ban-kick when the returned count reaches
`max_warnings`.  The warning ledger is not reset anywhere on this path
(`reset_user_warnings` has no caller); and since `check_flood_control`
constantly errors out to `False`, the flood branch is dead in the
deployed program.  Returns (flagged-as-flood, reported count if any,
banned, flood row after, ledger after). -/
def handle_comments_flood (max_warnings : Nat) (now : Nat)
    (flood : Option FloodRecord) (w : WarningLedger) :
    Bool × Option Nat × Bool × Option FloodRecord × WarningLedger :=
  let (is_flood, flood') := check_flood_control now flood
  if is_flood then
    let (c, w') := add_user_warning w
    (true, some c, decide (c ≥ max_warnings), flood', w')
  else
    (false, none, false, flood', w)

/-- Fold of `handle_comments_flood` over the times of successive
messages of the pair, collecting each message's flood flag. -/
def processMessages (max_warnings : Nat) :
    List Nat → Option FloodRecord → WarningLedger →
    List Bool × Option FloodRecord × WarningLedger
  | [], f, w => ([], f, w)
  | t :: ts, f, w =>
    let r := handle_comments_flood max_warnings t f w
    let rest := processMessages max_warnings ts r.2.2.2.1 r.2.2.2.2
    (r.1 :: rest.1, rest.2)

/-- `k` calls of `add_user_warning`, starting ledger state to final
ledger state. -/
def iterWarnings : Nat → WarningLedger → WarningLedger
  | 0, w => w
  | k + 1, w => iterWarnings k (add_user_warning w).2

/-- One row of the `message_cooldown` table for the fixed pair, reduced
to `last_message` (ms). -/
abbrev CooldownRecord : Type := Option Nat

/-- `DatabaseManager.check_message_cooldown` (src/bot.py lines 711-754).
First deletes the row if it is older than 1 day; then, if a row remains
and `seconds_passed < cooldown_seconds`, returns
`(False, int(cooldown_seconds - seconds_passed))` without touching the
row; otherwise upserts `last_message = now` and returns `(True, 0)`.
`seconds_passed` is the exact elapsed time `(now - last) / 1000`;
Python's `int(...)` on the positive float `cooldown_seconds -
seconds_passed` truncates, which on ms-exact inputs is the Nat division
below.  Result: ((can_send, seconds_remaining), row afterwards). -/
def check_message_cooldown (now : Nat) (rec : CooldownRecord)
    (cooldown_seconds : Nat := 30) : (Bool × Nat) × CooldownRecord :=
  let rec₀ : Option Nat :=
    match rec with
    | some lm => if lm + 86400000 < now then none else some lm
    | none => none
  match rec₀ with
  | some lm =>
      if now - lm < cooldown_seconds * 1000 then
        ((false, (cooldown_seconds * 1000 - (now - lm)) / 1000), some lm)
      else
        ((true, 0), some now)
  | none => ((true, 0), some now)

/-- Narrated from the spec's words only, for comparison with the source:
the remaining seconds as `cooldownSeconds - elapsed` rounded UP to a
whole second (`elapsed_ms` in ms). -/
def spec_remaining_ceiling (cooldown_seconds elapsed_ms : Nat) : Nat :=
  (cooldown_seconds * 1000 - elapsed_ms + 999) / 1000

/-- One row of the `user_captcha` table for the fixed pair
(src/bot.py lines 134-147).  Timestamps in ms. -/
structure CaptchaRecord where
  captcha_passed : Bool
  captcha_message_id : Nat
  attempts : Nat
  max_attempts : Nat
  created_at : Nat
  expires_at : Nat
deriving DecidableEq

/-- `DatabaseManager.create_captcha` (src/bot.py lines 769-787): upsert
with `expires_at = CURRENT_TIMESTAMP + INTERVAL 10 minutes` (a fixed 10
minutes — the function never reads `captcha_timeout_minutes`).  A fresh
insert takes the column defaults `captcha_passed = FALSE, attempts = 0,
max_attempts = 3, created_at = now`; on conflict the update resets
`captcha_passed`, `captcha_message_id`, `attempts` and `expires_at` and
keeps `created_at` and `max_attempts`. -/
def create_captcha (now : Nat) (message_id : Nat) (rec : Option CaptchaRecord) :
    Option CaptchaRecord :=
  match rec with
  | none => some ⟨false, message_id, 0, 3, now, now + 600000⟩
  | some r => some { r with
      captcha_passed := false
      captcha_message_id := message_id
      attempts := 0
      expires_at := now + 600000 }

/-- `DatabaseManager.check_captcha_passed` (src/bot.py lines 789-806):
first deletes every row with `expires_at < now` (passed or not), then
returns the row's `captcha_passed`, or `False` when no row remains.
Result paired with the row afterwards. -/
def check_captcha_passed (now : Nat) (rec : Option CaptchaRecord) :
    Bool × Option CaptchaRecord :=
  let rec₀ : Option CaptchaRecord :=
    match rec with
    | some r => if r.expires_at < now then none else some r
    | none => none
  match rec₀ with
  | some r => (r.captcha_passed, rec₀)
  | none => (false, none)

/-- `DatabaseManager.check_captcha_passed_recently` (src/bot.py lines
605-629).  The purge of expired rows executes, but the following SELECT
uses `created_at >= CURRENT_TIMESTAMP - INTERVAL %s DAY` with an integer
parameter (line 616) — like the flood check's `INTERVAL %s SECOND`,
invalid PostgreSQL — so the SELECT raises on every call, the transaction
(purge included) is rolled back leaving the row unchanged, and the
`except` branch (lines 627-629) returns `False`. -/
def check_captcha_passed_recently (_now : Nat) (_days : Nat)
    (rec : Option CaptchaRecord) : Bool × Option CaptchaRecord :=
  (false, rec)

/-- `DatabaseManager.mark_captcha_passed` (src/bot.py lines 810-823):
sets `captcha_passed = TRUE` on the row, returning whether a row was
updated; `expires_at` is left unchanged. -/
def mark_captcha_passed (rec : Option CaptchaRecord) :
    Bool × Option CaptchaRecord :=
  match rec with
  | some r => (true, some { r with captcha_passed := true })
  | none => (false, none)

/-- `DatabaseManager.increment_captcha_attempts` (src/bot.py lines
824-845): `UPDATE ... SET attempts = attempts + 1 ... RETURNING
attempts, max_attempts`; with a row present returns
`(attempts ≥ max_attempts, attempts)`, with none `(False, 0)` and no row
is created. -/
def increment_captcha_attempts (rec : Option CaptchaRecord) :
    (Bool × Nat) × Option CaptchaRecord :=
  match rec with
  | some r =>
      let a := r.attempts + 1
      ((decide (a ≥ r.max_attempts), a), some { r with attempts := a })
  | none => ((false, 0), none)

/-- `should_show_captcha` (src/bot.py lines 1995-2020): with no settings
or captcha disabled → `False`; policy ALWAYS → `True`; TIME_BASED →
negation of `check_captcha_passed_recently` over `captcha_valid_days`
(constantly `False` in deployment, so TIME_BASED always challenges);
anything else (PERSISTENT, the default) → negation of
`check_captcha_passed`. -/
def should_show_captcha (settings : Option ChatSettings) (now : Nat)
    (rec : Option CaptchaRecord) : Bool × Option CaptchaRecord :=
  match settings with
  | none => (false, rec)
  | some s =>
    if !s.captcha_enabled then (false, rec)
    else if s.captcha_policy = CaptchaPolicy.ALWAYS then (true, rec)
    else if s.captcha_policy = CaptchaPolicy.TIME_BASED then
      let (p, rec') := check_captcha_passed_recently now s.captcha_valid_days rec
      (!p, rec')
    else
      let (p, rec') := check_captcha_passed now rec
      (!p, rec')

/-- The visible effects of the `captcha_bot_` (wrong answer) branch of
`handle_captcha_callback` (src/bot.py lines 3315-3350): increment the
attempts; when the limit is reached, ban then unban the user and log
`user_banned / failed_captcha` (the row is NOT deleted on this path);
otherwise alert with `remaining_attempts = 3 - attempts`. -/
structure WrongAnswerOutcome where
  banned : Bool
  logged_failed_captcha : Bool
  remaining_reported : Option Nat
  record : Option CaptchaRecord
deriving DecidableEq

/-- The wrong-answer branch of `handle_captcha_callback` as a function
of the pair's captcha row. -/
def handle_captcha_wrong (rec : Option CaptchaRecord) : WrongAnswerOutcome :=
  let res := increment_captcha_attempts rec
  if res.1.1 then
    ⟨true, true, none, res.2⟩
  else
    ⟨false, false, some (3 - res.1.2), res.2⟩

/-- Outcome of `new_chat_members` (src/bot.py lines 2022-2091) for one
joining member: whether they were ban-kicked for a young account (with
`user_blocked` logged), whether a captcha was sent, whether a welcome
was sent. -/
structure JoinOutcome where
  kicked : Bool
  logged_user_blocked : Bool
  challenged : Bool
  welcomed : Bool
deriving DecidableEq

/-- The per-member body of `new_chat_members`: nothing when protection
is disabled; ban-kick, log `user_blocked` and `continue` when
`min_account_age_days > 0`, the account creation date is known and the
account's age in whole days is below the threshold; otherwise send the
captcha when it is enabled and `should_show_captcha` says so, else the
welcome message when it is nonempty.  `member_date` is the account
creation time in ms; a day is 86400000 ms and ages are floored to whole
days as Python's `timedelta.days` does. -/
def process_new_member (s : ChatSettings) (now : Nat)
    (member_date : Option Nat) (rec : Option CaptchaRecord) : JoinOutcome :=
  if !s.enabled then ⟨false, false, false, false⟩
  else
    let age_kick : Bool :=
      match member_date with
      | some d =>
          decide (s.min_account_age_days > 0) &&
          decide ((now - d) / 86400000 < s.min_account_age_days)
      | none => false
    if age_kick then ⟨true, true, false, false⟩
    else if s.captcha_enabled then
      if (should_show_captcha (some s) now rec).1 then ⟨false, false, true, false⟩
      else ⟨false, false, false, !s.welcome_message.isEmpty⟩
    else ⟨false, false, false, !s.welcome_message.isEmpty⟩

/-- Outcome of one iteration of the sweeper `check_captcha_expired`
(src/bot.py lines 3355-3394) on the pair's row: the row afterwards,
whether the user was removed (ban then unban) with `captcha_timeout`
logged, and whether an error was logged instead. -/
structure SweepOutcome where
  record : Option CaptchaRecord
  removed : Bool
  logged_timeout : Bool
  error_logged : Bool
deriving DecidableEq

/-- `check_captcha_expired` restricted to the pair's row: rows with
`expires_at < now AND captcha_passed = FALSE` are selected; for each the
sweeper tries ban, unban, message edit, `delete_captcha`, log; on any
exception it logs the error and still calls `delete_captcha`
(the `except` branch, lines 3388-3391).  `external_fails` says whether
the external actions raise. -/
def check_captcha_expired_step (now : Nat) (rec : Option CaptchaRecord)
    (external_fails : Bool) : SweepOutcome :=
  match rec with
  | some r =>
      if r.expires_at < now ∧ r.captcha_passed = false then
        if external_fails then ⟨none, false, false, true⟩
        else ⟨none, true, true, false⟩
      else ⟨some r, false, false, false⟩
  | none => ⟨none, false, false, false⟩

/-! Helper lemmas shared by the claim theorems. -/

/-- Iterating `add_user_warning` from a present count `c` yields `c + k`. -/
theorem iterWarnings_some (k c : Nat) :
    iterWarnings k (some c) = some (c + k) := by
  induction k generalizing c with
  | zero => rfl
  | succ n ih =>
      show iterWarnings n (some (c + 1)) = some (c + (n + 1))
      rw [ih]
      congr 1
      omega

/-- `k` violations from an empty ledger leave the count at `k`. -/
theorem iterWarnings_none (k : Nat) :
    iterWarnings k none = if k = 0 then none else some k := by
  cases k with
  | zero => rfl
  | succ n =>
      show iterWarnings n (some 1) = if n + 1 = 0 then none else some (n + 1)
      rw [iterWarnings_some]
      simp [Nat.add_comm]

/-! The claims. -/

/-- C2: with the default flood parameters `limit = 5`,
`windowSeconds = 10`, six messages of one pair arriving within one
10-second window, NONE of them — the 6th included — is flagged as flood
and the warning ledger is never touched: `check_flood_control`'s first
SQL statement is invalid PostgreSQL, so every call errors out to
`False` and the flood branch of `handle_comments` is dead.  Evaluated
at the claim's failing input (messages at 0..5000 ms from an empty
store, `maxWarnings = 3`), and also at a row that would already hold
count 5 — even it is not flagged. -/
theorem c2_flood_never_flagged :
    processMessages 3 [0, 1000, 2000, 3000, 4000, 5000] none none =
      ([false, false, false, false, false, false], none, none) ∧
    check_flood_control 5000 (some ⟨5, 4000⟩) = (false, some ⟨5, 4000⟩) := by
  decide

/-- C3 counterexample: the claim fails twice at concrete inputs.
First, a 6th-in-window message hitting a flood row of count 5 with the
ledger one short of `maxWarnings = 3` — the input on which the claim
promises the removal-triggering violation — produces no flood flag, no
`add_user_warning` call and no removal (the flood check errors out to
`False`).  Second, the ledger itself is never reset: after three
violations the fourth `add_user_warning` returns count 4, not a fresh
count 1 (`reset_user_warnings` has no caller). -/
theorem c3_counterexample :
    handle_comments_flood 3 5000 (some ⟨5, 4000⟩) (some 2) =
      (false, none, false, some ⟨5, 4000⟩, some 2) ∧
    (add_user_warning (iterWarnings 3 none)).1 = 4 ∧ (4 : Nat) ≠ 1 := by decide

/-- C3 (amended): `addViolation` itself (`add_user_warning`, whose
upsert is valid SQL) returns monotonically climbing counts — the
`(k+1)`-th call from an empty ledger returns `k + 1` — and no reset
ever follows: `reset_user_warnings` has no caller.  But the moderation
pipeline never reaches it on the flood path: `check_flood_control`
always errors out to `False` (invalid `INTERVAL %s SECOND` syntax), so
`handle_comments` never detects a flood, never adds a warning and never
removes anyone at `maxWarnings` through this path. -/
theorem c3_escalation_amended (mw k t : Nat) (flood : Option FloodRecord)
    (w : WarningLedger) :
    add_user_warning (iterWarnings k none) = (k + 1, some (k + 1)) ∧
    handle_comments_flood mw t flood w = (false, none, false, flood, w) := by
  constructor
  · rw [iterWarnings_none]
    cases k with
    | zero => rfl
    | succ n => simp [add_user_warning]
  · simp [handle_comments_flood, check_flood_control]

/-- C10: a wrong-answer event with no stored challenge record is a
no-op: the increment reports the limit as not reached with attempts 0,
no record is created, and the handler bans nobody, logs nothing, and
merely reports 3 remaining attempts. -/
theorem c10_wrong_answer_without_record_noop :
    increment_captcha_attempts none = ((false, 0), none) ∧
    handle_captcha_wrong none = ⟨false, false, some 3, none⟩ := by decide

/-- C4 counterexample: starting from a freshly issued challenge, the
third wrong answer does trigger the ban, yet the challenge record is
still stored afterwards — `handle_captcha_callback` never calls
`delete_captcha` on this path, so the record is not deleted as the
claim states. -/
theorem c4_counterexample :
    (handle_captcha_wrong (handle_captcha_wrong
      (handle_captcha_wrong (create_captcha 0 42 none)).record).record).banned
        = true ∧
    (handle_captcha_wrong (handle_captcha_wrong
      (handle_captcha_wrong (create_captcha 0 42 none)).record).record).record
        ≠ none := by decide

/-- C4 (amended): for a pending challenge record with `attempts = 0` and
`maxAttempts = 3`, the first two wrong answers leave the record stored
(PENDING) with the remaining attempts (2, then 1) reported and no ban;
the third wrong answer triggers the removal (ban then unban) and logs
`user_banned / failed_captcha` — removal does not wait for a fourth
wrong answer — but the record is NOT deleted by the handler: it stays
stored with `attempts = 3` until the expiry purge removes it. -/
theorem c4_third_wrong_answer_amended (r : CaptchaRecord)
    (h0 : r.attempts = 0) (h3 : r.max_attempts = 3) :
    handle_captcha_wrong (some r) =
      ⟨false, false, some 2, some { r with attempts := 1 }⟩ ∧
    handle_captcha_wrong (some { r with attempts := 1 }) =
      ⟨false, false, some 1, some { r with attempts := 2 }⟩ ∧
    handle_captcha_wrong (some { r with attempts := 2 }) =
      ⟨true, true, none, some { r with attempts := 3 }⟩ := by
  refine ⟨?_, ?_, ?_⟩ <;>
    simp [handle_captcha_wrong, increment_captcha_attempts, h0, h3]

/-- Witness for C4 at a concrete freshly issued record. -/
theorem c4_third_wrong_answer_amended_witness :
    handle_captcha_wrong (some ⟨false, 42, 0, 3, 0, 600000⟩) =
      ⟨false, false, some 2, some ⟨false, 42, 1, 3, 0, 600000⟩⟩ ∧
    handle_captcha_wrong (some ⟨false, 42, 1, 3, 0, 600000⟩) =
      ⟨false, false, some 1, some ⟨false, 42, 2, 3, 0, 600000⟩⟩ ∧
    handle_captcha_wrong (some ⟨false, 42, 2, 3, 0, 600000⟩) =
      ⟨true, true, none, some ⟨false, 42, 3, 3, 0, 600000⟩⟩ :=
  c4_third_wrong_answer_amended ⟨false, 42, 0, 3, 0, 600000⟩ rfl rfl

/-- C5 counterexample: `cooldownSeconds = 30`, last post at 0 ms,
second post at 500 ms.  The code reports 29 remaining seconds
(`int(30 - 0.5)` truncates), while the claim's ceiling rounding says
30. -/
theorem c5_counterexample :
    check_message_cooldown 500 (some 0) 30 = ((false, 29), some 0) ∧
    spec_remaining_ceiling 30 500 = 30 ∧ (29 : Nat) ≠ 30 := by decide

/-- C5 (amended): for a stored `lastPostAt` at most a day old, a check
within `cooldownSeconds` of it rejects with the remaining seconds
computed as `cooldownSeconds - elapsed` truncated DOWN to a whole second
(Python `int`, a floor — not a ceiling) and leaves the stored timestamp
unchanged; when the cooldown has elapsed it upserts `lastPostAt = now`
and accepts. -/
theorem c5_cooldown_amended (now lm cd : Nat) (_h0 : lm ≤ now)
    (hfresh : ¬ lm + 86400000 < now) :
    (now - lm < cd * 1000 →
      check_message_cooldown now (some lm) cd =
        ((false, (cd * 1000 - (now - lm)) / 1000), some lm)) ∧
    (cd * 1000 ≤ now - lm →
      check_message_cooldown now (some lm) cd = ((true, 0), some now)) := by
  constructor <;> intro h
  · have h' : now - lm < cd * 1000 := h
    simp [check_message_cooldown, hfresh, h']
  · have h' : ¬ (now - lm < cd * 1000) := by omega
    simp [check_message_cooldown, hfresh, h']

/-- Witness for C5: reject branch at `now = 500 ms`, `lastPostAt = 0`,
`cooldownSeconds = 30`. -/
theorem c5_cooldown_amended_witness :
    check_message_cooldown 500 (some 0) 30 =
      ((false, (30 * 1000 - (500 - 0)) / 1000), some 0) :=
  (c5_cooldown_amended 500 0 30 (by decide) (by decide)).1 (by decide)

/-- C6 counterexample: with a conversation configured with
`captcha_timeout_minutes = 20`, the issued record still expires
`600000 ms = 10 min` after issue — `create_captcha` hard-codes
`INTERVAL 10 minutes` and never reads the configured timeout, so
`expiresAt ≠ now + challengeTimeoutMinutes`. -/
theorem c6_counterexample :
    (create_captcha 0 42 none).map (fun r => r.expires_at) = some 600000 ∧
    ({ default_settings 1 with captcha_timeout_minutes := 20
       } : ChatSettings).captcha_timeout_minutes * 60000 = 1200000 ∧
    (600000 : Nat) ≠ 1200000 := by
  refine ⟨rfl, rfl, by decide⟩

/-- C6 (amended): `create_captcha` always leaves exactly one record for
the pair (the table has a UNIQUE(chat_id, user_id) key, the statement is
an upsert), in PENDING state with `attempts = 0`,
the new message id, and `expiresAt = now + 10 minutes` — a fixed 10
minutes, not the conversation's configured `challengeTimeoutMinutes`;
in particular a second issue in quick succession overwrites the pending
record, resetting its attempts and expiry, rather than creating a
duplicate. -/
theorem c6_issue_overwrites_amended (now mid : Nat) (rec : Option CaptchaRecord) :
    (create_captcha now mid rec).isSome = true ∧
    (∀ r', create_captcha now mid rec = some r' →
      r'.captcha_passed = false ∧ r'.attempts = 0 ∧
      r'.captcha_message_id = mid ∧ r'.expires_at = now + 600000) ∧
    (∀ now2 mid2 r'', create_captcha now2 mid2 (create_captcha now mid rec) = some r'' →
      r''.attempts = 0 ∧ r''.expires_at = now2 + 600000) := by
  cases rec with
  | none =>
      refine ⟨rfl, ?_, ?_⟩
      · intro r' h
        cases h
        exact ⟨rfl, rfl, rfl, rfl⟩
      · intro now2 mid2 r'' h
        cases h
        exact ⟨rfl, rfl⟩
  | some r =>
      refine ⟨rfl, ?_, ?_⟩
      · intro r' h
        cases h
        exact ⟨rfl, rfl, rfl, rfl⟩
      · intro now2 mid2 r'' h
        cases h
        exact ⟨rfl, rfl⟩

/-- Witness for C6: issuing at `now = 0` with message id 42 over an
empty store. -/
theorem c6_issue_overwrites_amended_witness :
    (⟨false, 42, 0, 3, 0, 600000⟩ : CaptchaRecord).captcha_passed = false ∧
    (⟨false, 42, 0, 3, 0, 600000⟩ : CaptchaRecord).attempts = 0 ∧
    (⟨false, 42, 0, 3, 0, 600000⟩ : CaptchaRecord).captcha_message_id = 42 ∧
    (⟨false, 42, 0, 3, 0, 600000⟩ : CaptchaRecord).expires_at = 0 + 600000 :=
  (c6_issue_overwrites_amended 0 42 none).2.1 ⟨false, 42, 0, 3, 0, 600000⟩ rfl

/-- C7 counterexample: on a storage error `get_chat_settings` returns
`None` — the absence of a policy — even when a perfectly good row is
stored; there is no last-known-good cache. -/
theorem c7_counterexample :
    (get_chat_settings 1 (some (default_settings 1)) true).1 = none := rfl

/-- C7 (amended): for an unseen conversation the resolver creates,
persists and returns the hard-coded defaults (enabled, 1-day age,
3 warnings, flood and challenge on, PERSISTENT policy, 10-minute
timeout, 3 attempts, 30-day validity); for a stored row it returns that
row; but on a storage error it returns `None` — the callers see the
absence of a policy (and skip moderation) — rather than any cached
last-known-good value. -/
theorem c7_policy_resolver_amended (cid : Int) (stored : Option ChatSettings)
    (s : ChatSettings) :
    get_chat_settings cid none false =
      (some (default_settings cid), some (default_settings cid)) ∧
    (default_settings cid).enabled = true ∧
    (default_settings cid).min_account_age_days = 1 ∧
    (default_settings cid).max_warnings = 3 ∧
    (default_settings cid).anti_flood_enabled = true ∧
    (default_settings cid).captcha_enabled = true ∧
    (default_settings cid).captcha_policy = CaptchaPolicy.PERSISTENT ∧
    (default_settings cid).captcha_timeout_minutes = 10 ∧
    (default_settings cid).captcha_max_attempts = 3 ∧
    (default_settings cid).captcha_valid_days = 30 ∧
    get_chat_settings cid (some s) false = (some s, some s) ∧
    get_chat_settings cid stored true = (none, stored) := by
  refine ⟨rfl, rfl, rfl, rfl, rfl, rfl, rfl, rfl, rfl, rfl, rfl, rfl⟩

/-- C8: when protection is enabled, `minAccountAgeDays > 0`, the
member's account-creation time is known and the account's age in whole
days is below the threshold, the join handler ban-kicks the member,
logs `user_blocked` and `continue`s — no challenge is issued and no
welcome is sent for that member. -/
theorem c8_young_account_kicked (s : ChatSettings) (now d : Nat)
    (rec : Option CaptchaRecord) (he : s.enabled = true)
    (ha : 0 < s.min_account_age_days)
    (hy : (now - d) / 86400000 < s.min_account_age_days) :
    process_new_member s now (some d) rec = ⟨true, true, false, false⟩ := by
  simp [process_new_member, he, ha, hy]

/-- Witness for C8: the spec's scenario — `minAccountAgeDays = 7`, an
account 2 days old. -/
theorem c8_young_account_kicked_witness :
    process_new_member { default_settings 1 with min_account_age_days := 7 }
      176400000 (some 0) none = ⟨true, true, false, false⟩ :=
  c8_young_account_kicked _ 176400000 0 none rfl (by decide) (by decide)

/-- C9: the sweeper's handling of an expired PENDING record deletes the
record from local storage even when the external removal action raises
— the `except` branch logs the failure and still calls `delete_captcha`
— and a subsequent sweep of the pair is a no-op (the sweeper itself
never retries the removal). -/
theorem c9_sweeper_deletes_despite_failure (now : Nat) (r : CaptchaRecord)
    (fails : Bool) (hexp : r.expires_at < now)
    (hpend : r.captcha_passed = false) :
    (check_captcha_expired_step now (some r) fails).record = none ∧
    (fails = true →
      check_captcha_expired_step now (some r) fails = ⟨none, false, false, true⟩) ∧
    (∀ now2 fails2,
      check_captcha_expired_step now2 none fails2 = ⟨none, false, false, false⟩) := by
  refine ⟨?_, ?_, fun now2 fails2 => rfl⟩
  · cases fails <;> simp [check_captcha_expired_step, hexp, hpend]
  · intro hf
    subst hf
    simp [check_captcha_expired_step, hexp, hpend]

/-- Witness for C9: an expired pending record swept at `now` one ms past
its expiry, with the external removal failing. -/
theorem c9_sweeper_deletes_despite_failure_witness :
    (check_captcha_expired_step 600001 (some ⟨false, 42, 0, 3, 0, 600000⟩) true).record
      = none ∧
    check_captcha_expired_step 600001 (some ⟨false, 42, 0, 3, 0, 600000⟩) true
      = ⟨none, false, false, true⟩ := by
  have h := c9_sweeper_deletes_despite_failure 600001
    ⟨false, 42, 0, 3, 0, 600000⟩ true (by decide) rfl
  exact ⟨h.1, h.2.1 rfl⟩

/-- C1: under the default (PERSISTENT) policy, a pair that passed its
challenge is re-challenged once the record's `expiresAt` has gone by:
`check_captcha_passed` first purges EVERY row with `expires_at < now`,
passed or not, and `mark_captcha_passed` never extends `expires_at`, so
a pass is forgotten 10 minutes after issue.  Here: issue at 0, pass,
`should_show_captcha` is still false at 300000 ms but true again at
600001 ms — contradicting the claim (and the bot's own description of
the PERSISTENT policy: the captcha is passed once and not required on a
later join). -/
theorem c1_persistent_pass_forgotten_after_expiry :
    (mark_captcha_passed (create_captcha 0 42 none)).1 = true ∧
    (should_show_captcha (some (default_settings 1)) 300000
      (mark_captcha_passed (create_captcha 0 42 none)).2).1 = false ∧
    (should_show_captcha (some (default_settings 1)) 600001
      (mark_captcha_passed (create_captcha 0 42 none)).2).1 = true := by
  refine ⟨rfl, rfl, rfl⟩

end AntiSpamBot
